import Mathlib

/-
  Verification of the API CRUD tester (files src/App/V1.py, src/App/V4.py,
  src/Manual_scripts/auto_ap.py) against its specification.

  Shallow embedding conventions:
  - JSON values are modelled by the inductive type Json below; numeric JSON
    literals are modelled as integers.
  - The network is an oracle of type Net: given a method tag, a url and an
    optional request body it yields either a received HTTP response (any
    status code) or a transport-level failure carrying an error message,
    mirroring the requests library which raises RequestException only for
    network-level failures and returns responses for all status codes.
  - A response carries its status code, its raw text, its parsed JSON body
    (none when parsing would raise json.JSONDecodeError) and the elapsed
    time already formatted as a string; header dictionaries do not influence
    any recorded outcome and are not modelled.
  - The wall-clock timestamp field of a logged result is environment input
    and is omitted from the model; the remaining fields (test, status,
    details) are modelled exactly.
  - Python exceptions that the code may raise are modelled with Except;
    fallible lookups return Option.
-/

/-- JSON values as parsed by json.loads; numbers are modelled as integers. -/
inductive Json where
  | null : Json
  | bool : Bool → Json
  | num : Int → Json
  | str : String → Json
  | arr : List Json → Json
  | obj : List (String × Json) → Json

/-- Python truthiness of a parsed JSON value: None, False, 0, empty string,
empty list and empty dict are falsy, everything else is truthy. -/
def pyTruthy : Json → Bool
  | Json.null => false
  | Json.bool b => b
  | Json.num n => if n = 0 then false else true
  | Json.str s => if s = "" then false else true
  | Json.arr [] => false
  | Json.arr (_ :: _) => true
  | Json.obj [] => false
  | Json.obj (_ :: _) => true

/-- Key lookup in a JSON object (Python dict access; parsed dicts have
distinct keys, so first match is the match). -/
def lookupField : List (String × Json) → String → Option Json
  | [], _ => none
  | (k, v) :: rest, key => if k = key then some v else lookupField rest key

mutual
/-- Python repr of a parsed JSON value (used by str() on containers). -/
def pyRepr : Json → String
  | Json.null => "None"
  | Json.bool true => "True"
  | Json.bool false => "False"
  | Json.num n => toString n
  | Json.str s => "\x27" ++ s ++ "\x27"
  | Json.arr xs => "[" ++ pyReprList xs ++ "]"
  | Json.obj fs => "\x7b" ++ pyReprFields fs ++ "\x7d"

def pyReprList : List Json → String
  | [] => ""
  | [x] => pyRepr x
  | x :: y :: rest => pyRepr x ++ ", " ++ pyReprList (y :: rest)

def pyReprFields : List (String × Json) → String
  | [] => ""
  | [(k, v)] => "\x27" ++ k ++ "\x27: " ++ pyRepr v
  | (k, v) :: p :: rest => "\x27" ++ k ++ "\x27: " ++ pyRepr v ++ ", " ++ pyReprFields (p :: rest)
end

/-- Python str() of a parsed JSON value, as used by the f-string
interpolation f"/\x7bresource_id\x7d" when building an endpoint suffix. -/
def pyStr : Json → String
  | Json.null => "None"
  | Json.bool true => "True"
  | Json.bool false => "False"
  | Json.num n => toString n
  | Json.str s => s
  | Json.arr xs => pyRepr (Json.arr xs)
  | Json.obj fs => pyRepr (Json.obj fs)

/-- One received HTTP response: status code, raw body text, parsed JSON body
(none when .json() would raise), and the elapsed seconds pre-formatted. -/
structure HttpResponse where
  status : Nat
  text : String
  body : Option Json
  elapsed : String

/-- Result of one network call: a response was received (any status code),
or a network-level failure occurred (connection refused, DNS failure,
timeout), carrying the exception text. -/
inductive NetResult where
  | response : HttpResponse → NetResult
  | transportError : String → NetResult

/-- The network oracle: method tag, url, request body sent as json. -/
abbrev Net := String → String → Option Json → NetResult

/-- One logged entry, as appended by APITester.log_result. The wall-clock
timestamp is environment input and omitted. -/
structure TestResult where
  test : String
  status : String
  details : String
deriving DecidableEq

/-- Result of one test method call: the value returned to the caller, the
log entries appended to self.results, and the HTTP requests attempted. -/
structure StepResult where
  ret : Option HttpResponse
  log : List TestResult
  issued : List (String × String × Option Json)

/-- Python slicing text[:n] on a string. -/
def strTake (s : String) (n : Nat) : String := String.mk (s.toList.take n)

/-- The five HTTP methods the dispatch chain in V4 test_request supports. -/
def validMethod (m : String) : Bool :=
  m == "GET" || m == "POST" || m == "PUT" || m == "PATCH" || m == "DELETE"

/-- The body actually sent for a given method: the dispatch passes json=data
only for POST, PUT and PATCH; GET and DELETE send no body. -/
def payloadOf (m : String) (d : Option Json) : Option Json :=
  if m = "GET" || m = "DELETE" then none else d

/-- src/App/V4.py lines 36-79: APITester.test_request. Generic test method
for any HTTP method: builds the url by concatenation, dispatches on the
method string, logs PASS when the received status equals the expected one,
logs FAIL with a diagnostic otherwise, logs FAIL with the exception text on
a transport error, and logs FAIL without attempting a request when the
method is unsupported. Returns the response only on PASS. -/
def test_request (net : Net) (base : String) (method : String)
    (endpoint : String) (data : Option Json) (expected_status : Nat)
    (test_name : Option String) : StepResult :=
  let url := base ++ endpoint
  let name := test_name.getD (method ++ " " ++ url)
  let attempt : Option (Option Json) :=
    if method = "GET" then some none
    else if method = "POST" then some data
    else if method = "PUT" then some data
    else if method = "PATCH" then some data
    else if method = "DELETE" then some none
    else none
  match attempt with
  | none =>
      ⟨none, [⟨name, "FAIL", "Unsupported method: " ++ method⟩], []⟩
  | some payload =>
      match net method url payload with
      | NetResult.response r =>
          if r.status = expected_status then
            ⟨some r,
             [⟨name, "PASS",
               "Status: " ++ toString r.status ++ ", Response time: " ++ r.elapsed ++ "s"⟩],
             [(method, url, payload)]⟩
          else
            ⟨none,
             [⟨name, "FAIL",
               "Expected status " ++ toString expected_status ++ ", got " ++
                 toString r.status ++ ". Response: " ++ strTake r.text 150⟩],
             [(method, url, payload)]⟩
      | NetResult.transportError e =>
          ⟨none, [⟨name, "FAIL", "Error: " ++ e⟩], [(method, url, payload)]⟩

/-- src/App/V1.py lines 30-55: APITester.test_get. Issues GET, judges the
received status against the expected one; the FAIL detail for a status
mismatch carries both codes. Returns the response only on PASS. -/
def test_get (net : Net) (base : String) (endpoint : String)
    (expected_status : Nat) : StepResult :=
  let url := base ++ endpoint
  let name := "GET " ++ url
  match net "GET" url none with
  | NetResult.response r =>
      if r.status = expected_status then
        ⟨some r,
         [⟨name, "PASS",
           "Status: " ++ toString r.status ++ ", Response time: " ++ r.elapsed ++ "s"⟩],
         [("GET", url, none)]⟩
      else
        ⟨none,
         [⟨name, "FAIL",
           "Expected status " ++ toString expected_status ++ ", got " ++ toString r.status⟩],
         [("GET", url, none)]⟩
  | NetResult.transportError e =>
      ⟨none, [⟨name, "FAIL", "Error: " ++ e⟩], [("GET", url, none)]⟩

/-- src/App/V1.py lines 57-85: APITester.test_post. As test_get but POST,
default expectation 201, and the mismatch detail appends text[:200]. -/
def test_post (net : Net) (base : String) (endpoint : String)
    (data : Option Json) (expected_status : Nat) : StepResult :=
  let url := base ++ endpoint
  let name := "POST " ++ url
  match net "POST" url data with
  | NetResult.response r =>
      if r.status = expected_status then
        ⟨some r,
         [⟨name, "PASS",
           "Status: " ++ toString r.status ++ ", Response time: " ++ r.elapsed ++ "s"⟩],
         [("POST", url, data)]⟩
      else
        ⟨none,
         [⟨name, "FAIL",
           "Expected status " ++ toString expected_status ++ ", got " ++
             toString r.status ++ ". Response: " ++ strTake r.text 200⟩],
         [("POST", url, data)]⟩
  | NetResult.transportError e =>
      ⟨none, [⟨name, "FAIL", "Error: " ++ e⟩], [("POST", url, data)]⟩

/-- src/App/V1.py lines 87-115: APITester.test_put. -/
def test_put (net : Net) (base : String) (endpoint : String)
    (data : Option Json) (expected_status : Nat) : StepResult :=
  let url := base ++ endpoint
  let name := "PUT " ++ url
  match net "PUT" url data with
  | NetResult.response r =>
      if r.status = expected_status then
        ⟨some r,
         [⟨name, "PASS",
           "Status: " ++ toString r.status ++ ", Response time: " ++ r.elapsed ++ "s"⟩],
         [("PUT", url, data)]⟩
      else
        ⟨none,
         [⟨name, "FAIL",
           "Expected status " ++ toString expected_status ++ ", got " ++
             toString r.status ++ ". Response: " ++ strTake r.text 200⟩],
         [("PUT", url, data)]⟩
  | NetResult.transportError e =>
      ⟨none, [⟨name, "FAIL", "Error: " ++ e⟩], [("PUT", url, data)]⟩

/-- src/App/V1.py lines 117-145: APITester.test_patch. -/
def test_patch (net : Net) (base : String) (endpoint : String)
    (data : Option Json) (expected_status : Nat) : StepResult :=
  let url := base ++ endpoint
  let name := "PATCH " ++ url
  match net "PATCH" url data with
  | NetResult.response r =>
      if r.status = expected_status then
        ⟨some r,
         [⟨name, "PASS",
           "Status: " ++ toString r.status ++ ", Response time: " ++ r.elapsed ++ "s"⟩],
         [("PATCH", url, data)]⟩
      else
        ⟨none,
         [⟨name, "FAIL",
           "Expected status " ++ toString expected_status ++ ", got " ++
             toString r.status ++ ". Response: " ++ strTake r.text 200⟩],
         [("PATCH", url, data)]⟩
  | NetResult.transportError e =>
      ⟨none, [⟨name, "FAIL", "Error: " ++ e⟩], [("PATCH", url, data)]⟩

/-- src/App/V1.py lines 147-172: APITester.test_delete. The mismatch detail
carries both codes and no response text, like test_get. -/
def test_delete (net : Net) (base : String) (endpoint : String)
    (expected_status : Nat) : StepResult :=
  let url := base ++ endpoint
  let name := "DELETE " ++ url
  match net "DELETE" url none with
  | NetResult.response r =>
      if r.status = expected_status then
        ⟨some r,
         [⟨name, "PASS",
           "Status: " ++ toString r.status ++ ", Response time: " ++ r.elapsed ++ "s"⟩],
         [("DELETE", url, none)]⟩
      else
        ⟨none,
         [⟨name, "FAIL",
           "Expected status " ++ toString expected_status ++ ", got " ++ toString r.status⟩],
         [("DELETE", url, none)]⟩
  | NetResult.transportError e =>
      ⟨none, [⟨name, "FAIL", "Error: " ++ e⟩], [("DELETE", url, none)]⟩

/-- Python d.get(k): returns the value under k, or None when absent; raises
AttributeError (modelled as Except.error) when d is not a dict. -/
def pyGet (d : Json) (k : String) : Except Unit Json :=
  match d with
  | Json.obj fs => Except.ok ((lookupField fs k).getD Json.null)
  | _ => Except.error ()

/-- Python d.get(k, dflt): as pyGet but with an explicit default. -/
def pyGetD (d : Json) (k : String) (dflt : Json) : Except Unit Json :=
  match d with
  | Json.obj fs => Except.ok ((lookupField fs k).getD dflt)
  | _ => Except.error ()

/-- src/App/V1.py lines 228-232 (same text at src/Manual_scripts/auto_ap.py
lines 246-250): the resource-id expression

  response_data.get(id) or response_data.get(_id) or
  response_data.get(uuid) or response_data.get(data, empty-dict).get(id)

with Python or-semantics: each operand is evaluated left to right and the
first truthy one is the value of the chain; when all are falsy the value of
the last operand is taken. An AttributeError anywhere is an error result. -/
def extract_resource_id (d : Json) : Except Unit Json :=
  match pyGet d "id" with
  | Except.error e => Except.error e
  | Except.ok a =>
    if pyTruthy a then Except.ok a
    else
      match pyGet d "_id" with
      | Except.error e => Except.error e
      | Except.ok b =>
        if pyTruthy b then Except.ok b
        else
          match pyGet d "uuid" with
          | Except.error e => Except.error e
          | Except.ok c =>
            if pyTruthy c then Except.ok c
            else
              match pyGetD d "data" (Json.obj []) with
              | Except.error e => Except.error e
              | Except.ok dv => pyGet dv "id"

/-- src/App/V1.py lines 227-234: the try block around .json() and the
resource-id expression, with the bare except leaving resource_id = None:
a body that fails to parse or an exception during extraction yields None. -/
def resource_id_of (resp : HttpResponse) : Json :=
  match resp.body with
  | none => Json.null
  | some d =>
      match extract_resource_id d with
      | Except.ok v => v
      | Except.error _ => Json.null

/-- Membership test (Python operator in) of a string key in a parsed JSON
value: dict key membership, list element membership, substring test on a
string; TypeError (modelled as Except.error) on other values. -/
def pyContains (field : String) (d : Json) : Except Unit Bool :=
  match d with
  | Json.obj fs => Except.ok (lookupField fs field).isSome
  | Json.arr xs => Except.ok (xs.any (fun x =>
      match x with
      | Json.str s => s = field
      | _ => false))
  | Json.str s => Except.ok (decide (List.IsInfix field.toList s.toList))
  | _ => Except.error ()

/-- Descent along a dotted field path, mirroring lines 184-190 of
src/App/V1.py: each segment must find a dict containing that key. -/
def descendOk (d : Json) : List String → Bool
  | [] => true
  | p :: ps =>
      match d with
      | Json.obj fs =>
          match lookupField fs p with
          | some v => descendOk v ps
          | none => false
      | _ => false

/-- The missing-fields loop of src/App/V1.py lines 180-193: dotted fields
use the descent, plain fields use the Python in operator on the parsed
body (which may raise TypeError for non-container bodies). -/
def missingFields (data : Json) : List String → Except Unit (List String)
  | [] => Except.ok []
  | field :: rest => do
      let hereMissing ←
        if field.contains (Char.ofNat 46) then
          Except.ok (if descendOk data (field.splitOn ".") then ([] : List String) else [field])
        else do
          let b ← pyContains field data
          Except.ok (if b then ([] : List String) else [field])
      let restMissing ← missingFields data rest
      Except.ok (hereMissing ++ restMissing)

/-- src/App/V1.py lines 174-203: APITester.validate_response_data. Parses
the body (json.JSONDecodeError is caught and reported as the distinct
invalid-JSON failure), then, when a non-empty field list is given, collects
missing fields; an uncaught Python exception is an error result. -/
def validate_response_data (resp : HttpResponse)
    (expected_fields : Option (List String)) : Except Unit (Bool × String) :=
  match resp.body with
  | none => Except.ok (false, "Invalid JSON response")
  | some data =>
      match expected_fields with
      | none => Except.ok (true, "Response validated")
      | some [] => Except.ok (true, "Response validated")
      | some fields => do
          let missing ← missingFields data fields
          match missing with
          | [] => Except.ok (true, "All expected fields present")
          | _ => Except.ok (false, "Missing fields: " ++ String.intercalate ", " missing)

/-- Default create body of run_full_crud_test (src/App/V1.py line 210). -/
def default_create_data : Json :=
  Json.obj [("name", Json.str "Test Item"), ("description", Json.str "Test"),
            ("value", Json.num 123)]

/-- Default update body of run_full_crud_test (src/App/V1.py line 213). -/
def default_update_data : Json :=
  Json.obj [("name", Json.str "Updated Item"), ("description", Json.str "Updated"),
            ("value", Json.num 456)]

/-- Default patch body of run_full_crud_test (src/App/V1.py line 216). -/
def default_patch_data : Json :=
  Json.obj [("description", Json.str "Partially updated")]

/-- src/App/V1.py lines 205-268: APITester.run_full_crud_test. The fixed
CRUD lifecycle: CREATE, then id extraction from the creation response, READ
all, then the identity-dependent steps (fetch one, PUT plus verify GET,
PATCH plus verify GET, DELETE plus verify-gone GET) guarded by the
truthiness of the extracted id, then the three edge-case requests. The
validate_response_data calls on lines 225 and 244 have no effect on the
log and are omitted. The returned list is the sequence of log entries
appended to self.results, in order. -/
def run_full_crud_test (net : Net) (base : String) (create_data : Option Json)
    (update_data : Option Json) (patch_data : Option Json)
    (expected_fields : Option (List String)) : List TestResult :=
  let cd := create_data.getD default_create_data
  let ud := update_data.getD default_update_data
  let pd := patch_data.getD default_patch_data
  let post := test_post net base "" (some cd) 201
  let rid : Json :=
    match post.ret with
    | some resp => resource_id_of resp
    | none => Json.null
  let getAll := test_get net base "" 200
  let idSeg := "/" ++ pyStr rid
  let fetchLog :=
    if pyTruthy rid then (test_get net base idSeg 200).log else []
  let putLog :=
    if pyTruthy rid then
      let put := test_put net base idSeg (some ud) 200
      put.log ++ (match put.ret with
        | some _ => (test_get net base idSeg 200).log
        | none => [])
    else []
  let patchLog :=
    if pyTruthy rid then
      let pat := test_patch net base idSeg (some pd) 200
      pat.log ++ (match pat.ret with
        | some _ => (test_get net base idSeg 200).log
        | none => [])
    else []
  let delLog :=
    if pyTruthy rid then
      (test_delete net base idSeg 200).log ++ (test_get net base idSeg 404).log
    else []
  let edgeLog :=
    (test_get net base "/nonexistent-id-12345" 404).log ++
    (test_delete net base "/nonexistent-id-12345" 404).log ++
    (test_post net base "" (some (Json.obj [])) 400).log
  post.log ++ getAll.log ++ fetchLog ++ putLog ++ patchLog ++ delLog ++ edgeLog

/-- One data-driven test-case descriptor, a Python dict read with .get and
defaults (src/App/V4.py lines 84-88): absent keys are modelled as none. -/
structure TestCase where
  method : Option String
  endpoint : Option String
  data : Option Json
  expected_status : Option Nat
  description : Option String

/-- The body of the loop in run_ai_generated_tests (src/App/V4.py lines
83-98) for the descriptor at 1-based position i: defaults are applied and
test_request is invoked with the AI-test label. -/
def aiStep (net : Net) (base : String) (i : Nat) (tc : TestCase) : StepResult :=
  test_request net base (tc.method.getD "GET") (tc.endpoint.getD "")
    tc.data (tc.expected_status.getD 200)
    (some ("[AI Test " ++ toString i ++ "] " ++
      tc.description.getD ("Test " ++ toString i)))

/-- The loop of run_ai_generated_tests starting at 1-based position i. -/
def runAiAux (net : Net) (base : String) : Nat → List TestCase → List StepResult
  | _, [] => []
  | i, tc :: rest => aiStep net base i tc :: runAiAux net base (i + 1) rest

/-- The log entries appended by the loop of run_ai_generated_tests starting
at 1-based position i, in order. -/
def aiResultsFrom (net : Net) (base : String) (i : Nat) (cases : List TestCase) :
    List TestResult :=
  ((runAiAux net base i cases).map (fun s => s.log)).flatten

/-- The requests attempted by the loop of run_ai_generated_tests starting
at 1-based position i, in order. -/
def aiIssuedFrom (net : Net) (base : String) (i : Nat) (cases : List TestCase) :
    List (String × String × Option Json) :=
  ((runAiAux net base i cases).map (fun s => s.issued)).flatten

/-- src/App/V4.py lines 81-98: APITester.run_ai_generated_tests, as the
sequence of log entries it appends to self.results. -/
def run_ai_generated_tests (net : Net) (base : String) (cases : List TestCase) :
    List TestResult :=
  aiResultsFrom net base 1 cases

/-- The summary record of src/App/V1.py lines 270-281 (identical text at
src/App/V4.py lines 100-111). The pass rate is a rational number. -/
structure Summary where
  total : Nat
  passed : Nat
  failed : Nat
  pass_rate : Rat

/-- src/App/V1.py lines 270-281: APITester.get_summary. -/
def get_summary (results : List TestResult) : Summary :=
  let total := results.length
  let passed := (results.filter (fun r => r.status = "PASS")).length
  ⟨total, passed, total - passed,
   if total > 0 then (passed : Rat) / (total : Rat) * 100 else 0⟩

/-- Drop the leading run of slash characters from a character list. -/
def dropSlashes : List Char → List Char
  | [] => []
  | c :: cs => if c = Char.ofNat 47 then dropSlashes cs else c :: cs

/-- Python base_url.rstrip with the slash character: removes the whole
trailing run of slashes. -/
def pyRstripSlashes (s : String) : String :=
  String.mk (dropSlashes s.toList.reverse).reverse

/-- src/App/V4.py lines 21-24 (identical in V1 and the manual scripts):
APITester.init stores base_url.rstrip of slashes. -/
def apiTesterBase (u : String) : String := pyRstripSlashes u

/-- A fixed network oracle on which every call fails at transport level. -/
def netRefuse : Net := fun _ _ _ => NetResult.transportError "connection refused"

lemma validMethod_true_cases (m : String) (hm : validMethod m = true) :
    m = "GET" ∨ m = "POST" ∨ m = "PUT" ∨ m = "PATCH" ∨ m = "DELETE" := by
  simpa [validMethod, or_assoc] using hm

lemma test_request_unsupported (net : Net) (base m ep : String) (d : Option Json)
    (exp : Nat) (nm : Option String) (hm : validMethod m = false) :
    test_request net base m ep d exp nm =
      ⟨none, [⟨nm.getD (m ++ " " ++ (base ++ ep)), "FAIL",
        "Unsupported method: " ++ m⟩], []⟩ := by
  simp only [validMethod, Bool.or_eq_false_iff, beq_eq_false_iff_ne] at hm
  obtain ⟨⟨⟨⟨h1, h2⟩, h3⟩, h4⟩, h5⟩ := hm
  simp [test_request, h1, h2, h3, h4, h5]

lemma test_request_valid (net : Net) (base m ep : String) (d : Option Json)
    (exp : Nat) (nm : Option String) (hm : validMethod m = true) :
    test_request net base m ep d exp nm =
      (match net m (base ++ ep) (payloadOf m d) with
       | NetResult.response r =>
           if r.status = exp then
             ⟨some r,
              [⟨nm.getD (m ++ " " ++ (base ++ ep)), "PASS",
                "Status: " ++ toString r.status ++ ", Response time: " ++ r.elapsed ++ "s"⟩],
              [(m, base ++ ep, payloadOf m d)]⟩
           else
             ⟨none,
              [⟨nm.getD (m ++ " " ++ (base ++ ep)), "FAIL",
                "Expected status " ++ toString exp ++ ", got " ++
                  toString r.status ++ ". Response: " ++ strTake r.text 150⟩],
              [(m, base ++ ep, payloadOf m d)]⟩
       | NetResult.transportError e =>
           ⟨none, [⟨nm.getD (m ++ " " ++ (base ++ ep)), "FAIL", "Error: " ++ e⟩],
            [(m, base ++ ep, payloadOf m d)]⟩) := by
  rcases validMethod_true_cases m hm with h | h | h | h | h <;> subst h <;> rfl

lemma test_request_log_length (net : Net) (base m ep : String) (d : Option Json)
    (exp : Nat) (nm : Option String) :
    (test_request net base m ep d exp nm).log.length = 1 := by
  cases hv : validMethod m with
  | false => rw [test_request_unsupported net base m ep d exp nm hv]; rfl
  | true =>
      rw [test_request_valid net base m ep d exp nm hv]
      cases hnet : net m (base ++ ep) (payloadOf m d) with
      | response r =>
          dsimp only
          split <;> rfl
      | transportError e => rfl

lemma test_request_issued_length (net : Net) (base m ep : String) (d : Option Json)
    (exp : Nat) (nm : Option String) :
    (test_request net base m ep d exp nm).issued.length =
      (if validMethod m then 1 else 0) := by
  cases hv : validMethod m with
  | false => rw [test_request_unsupported net base m ep d exp nm hv]; rfl
  | true =>
      rw [test_request_valid net base m ep d exp nm hv]
      cases hnet : net m (base ++ ep) (payloadOf m d) with
      | response r =>
          dsimp only
          split <;> rfl
      | transportError e => rfl

lemma test_get_log_length (net : Net) (base ep : String) (exp : Nat) :
    (test_get net base ep exp).log.length = 1 := by
  cases h : net "GET" (base ++ ep) none with
  | response r =>
      simp only [test_get, h]
      split <;> rfl
  | transportError e => simp only [test_get, h]; rfl

lemma test_post_log_length (net : Net) (base ep : String) (d : Option Json) (exp : Nat) :
    (test_post net base ep d exp).log.length = 1 := by
  cases h : net "POST" (base ++ ep) d with
  | response r =>
      simp only [test_post, h]
      split <;> rfl
  | transportError e => simp only [test_post, h]; rfl

lemma test_put_log_length (net : Net) (base ep : String) (d : Option Json) (exp : Nat) :
    (test_put net base ep d exp).log.length = 1 := by
  cases h : net "PUT" (base ++ ep) d with
  | response r =>
      simp only [test_put, h]
      split <;> rfl
  | transportError e => simp only [test_put, h]; rfl

lemma test_patch_log_length (net : Net) (base ep : String) (d : Option Json) (exp : Nat) :
    (test_patch net base ep d exp).log.length = 1 := by
  cases h : net "PATCH" (base ++ ep) d with
  | response r =>
      simp only [test_patch, h]
      split <;> rfl
  | transportError e => simp only [test_patch, h]; rfl

lemma test_delete_log_length (net : Net) (base ep : String) (exp : Nat) :
    (test_delete net base ep exp).log.length = 1 := by
  cases h : net "DELETE" (base ++ ep) none with
  | response r =>
      simp only [test_delete, h]
      split <;> rfl
  | transportError e => simp only [test_delete, h]; rfl

/-- Claim C4: the summary satisfies passRate = passed/total * 100; an empty
log has pass rate 0 rather than an error; a log of 4 entries of which 3 are
PASS has pass rate 75. -/
theorem summary_pass_rate :
    (∀ results : List TestResult,
       (get_summary results).pass_rate =
         ((get_summary results).passed : Rat) / ((get_summary results).total : Rat) * 100) ∧
    (get_summary []).pass_rate = 0 ∧
    (get_summary [⟨"t1", "PASS", "d1"⟩, ⟨"t2", "PASS", "d2"⟩,
                  ⟨"t3", "FAIL", "d3"⟩, ⟨"t4", "PASS", "d4"⟩]).pass_rate = 75 := by
  refine ⟨fun results => ?_, rfl, ?_⟩
  · cases results with
    | nil => simp [get_summary]
    | cons r rs => simp [get_summary]
  · show (if (0 : Nat) < 4 then ((3 : Nat) : Rat) / ((4 : Nat) : Rat) * 100 else 0) = 75
    norm_num

/-- Claim C7: when the response body is not valid JSON, validate_response_data
returns the failure result with the distinct invalid-response-body
diagnostic, for any requested field list, without reaching the
missing-field logic and without raising an uncaught exception (the result
is an ok value, not an error). -/
theorem validate_invalid_json (resp : HttpResponse) (fields : Option (List String))
    (h : resp.body = none) :
    validate_response_data resp fields = Except.ok (false, "Invalid JSON response") := by
  unfold validate_response_data
  rw [h]

/-- Witness for validate_invalid_json at a concrete non-JSON response with a
requested field check. -/
theorem validate_invalid_json_witness :
    validate_response_data ⟨500, "internal server error page", none, "0.10"⟩
        (some ["id", "data.id"]) =
      Except.ok (false, "Invalid JSON response") :=
  validate_invalid_json ⟨500, "internal server error page", none, "0.10"⟩
    (some ["id", "data.id"]) rfl

/-- Counterexample to claim C3: a creation body holding both an id key and
an _id key for which the extracted identity is not the id value: id maps to
0, which is present and non-null, yet the extraction chain skips it because
0 is falsy in Python, and returns the _id value 7 instead. -/
theorem extract_id_counterexample :
    extract_resource_id (Json.obj [("id", Json.num 0), ("_id", Json.num 7)]) =
      Except.ok (Json.num 7) ∧
    Json.num 7 ≠ Json.num 0 := by
  refine ⟨rfl, fun h => ?_⟩
  injection h with h2
  exact absurd h2 (by decide)

/-- Claim C3 (amended): the extraction tries id, _id, uuid, data.id in that
order and returns the first truthy value (null, False, 0, empty string and
empty containers are skipped, not only null). Level by level: a truthy id
value wins outright; when the id value is absent or falsy, a truthy _id
value wins; when both are absent or falsy, a truthy uuid value wins; and
when all three are absent or falsy the result is the data.id lookup (the
value under id of the dict stored under data, defaulting to an empty dict,
with a non-dict data value raising). Absence and falsiness coincide in the
chain because d.get of a missing key yields None, which is falsy. -/
theorem extract_id_first_truthy (fs : List (String × Json)) :
    (∀ v, lookupField fs "id" = some v → pyTruthy v = true →
       extract_resource_id (Json.obj fs) = Except.ok v) ∧
    (pyTruthy ((lookupField fs "id").getD Json.null) = false →
       ∀ v, lookupField fs "_id" = some v → pyTruthy v = true →
         extract_resource_id (Json.obj fs) = Except.ok v) ∧
    (pyTruthy ((lookupField fs "id").getD Json.null) = false →
     pyTruthy ((lookupField fs "_id").getD Json.null) = false →
       ∀ v, lookupField fs "uuid" = some v → pyTruthy v = true →
         extract_resource_id (Json.obj fs) = Except.ok v) ∧
    (pyTruthy ((lookupField fs "id").getD Json.null) = false →
     pyTruthy ((lookupField fs "_id").getD Json.null) = false →
     pyTruthy ((lookupField fs "uuid").getD Json.null) = false →
       extract_resource_id (Json.obj fs) =
         pyGet ((lookupField fs "data").getD (Json.obj [])) "id") := by
  refine ⟨fun v h1 h2 => ?_, fun h0 v h1 h2 => ?_,
          fun h0 h0b v h1 h2 => ?_, fun h0 h0b h0c => ?_⟩
  · unfold extract_resource_id
    simp [pyGet, h1, h2]
  · unfold extract_resource_id
    simp [pyGet, h0, h1, h2]
  · unfold extract_resource_id
    simp [pyGet, h0, h0b, h1, h2]
  · unfold extract_resource_id
    simp [pyGet, pyGetD, h0, h0b, h0c]

/-- Witness for extract_id_first_truthy, one concrete body per level of the
chain: truthy id wins over _id; falsy id falls through to _id; with neither
id nor _id, a truthy uuid wins; with a falsy id and nothing else, the
nested data.id value is returned. -/
theorem extract_id_first_truthy_witness :
    extract_resource_id (Json.obj [("id", Json.num 7), ("_id", Json.num 5)]) =
      Except.ok (Json.num 7) ∧
    extract_resource_id (Json.obj [("id", Json.num 0), ("_id", Json.num 5)]) =
      Except.ok (Json.num 5) ∧
    extract_resource_id (Json.obj [("uuid", Json.str "u1")]) =
      Except.ok (Json.str "u1") ∧
    extract_resource_id (Json.obj [("id", Json.num 0),
        ("data", Json.obj [("id", Json.num 9)])]) =
      Except.ok (Json.num 9) := by
  refine ⟨?_, ?_, ?_, ?_⟩
  · exact (extract_id_first_truthy [("id", Json.num 7), ("_id", Json.num 5)]).1
      (Json.num 7) rfl rfl
  · exact (extract_id_first_truthy [("id", Json.num 0), ("_id", Json.num 5)]).2.1
      rfl (Json.num 5) rfl rfl
  · exact (extract_id_first_truthy [("uuid", Json.str "u1")]).2.2.1
      rfl rfl (Json.str "u1") rfl rfl
  · exact ((extract_id_first_truthy [("id", Json.num 0),
      ("data", Json.obj [("id", Json.num 9)])]).2.2.2 rfl rfl rfl).trans rfl

lemma aiResultsFrom_nil (net : Net) (base : String) (i : Nat) :
    aiResultsFrom net base i [] = [] := rfl

lemma aiResultsFrom_cons (net : Net) (base : String) (i : Nat) (tc : TestCase)
    (rest : List TestCase) :
    aiResultsFrom net base i (tc :: rest) =
      (aiStep net base i tc).log ++ aiResultsFrom net base (i + 1) rest := by
  simp [aiResultsFrom, runAiAux]

lemma aiStep_log_length (net : Net) (base : String) (i : Nat) (tc : TestCase) :
    (aiStep net base i tc).log.length = 1 := by
  unfold aiStep
  exact test_request_log_length _ _ _ _ _ _ _

lemma aiResultsFrom_length (net : Net) (base : String) :
    ∀ (cases : List TestCase) (i : Nat),
      (aiResultsFrom net base i cases).length = cases.length := by
  intro cases
  induction cases with
  | nil => intro i; rfl
  | cons tc rest ih =>
      intro i
      rw [aiResultsFrom_cons, List.length_append, aiStep_log_length, ih,
        List.length_cons]
      omega

/-- Claim C1: the data-driven runner produces, for a sequence of N
descriptors, exactly N log entries, one per descriptor and in input order:
the run log is the concatenation of the single-entry logs of the steps
taken at 1-based positions 1..N, and its length equals N, for every network
behaviour. -/
theorem ai_run_outcomes_in_order (net : Net) (base : String) (cases : List TestCase) :
    run_ai_generated_tests net base cases =
      ((cases.enumFrom 1).map (fun p => (aiStep net base p.1 p.2).log)).flatten ∧
    (run_ai_generated_tests net base cases).length = cases.length := by
  constructor
  · show aiResultsFrom net base 1 cases = _
    have main : ∀ (cs : List TestCase) (i : Nat),
        aiResultsFrom net base i cs =
          ((cs.enumFrom i).map (fun p => (aiStep net base p.1 p.2).log)).flatten := by
      intro cs
      induction cs with
      | nil => intro i; rfl
      | cons tc rest ih =>
          intro i
          rw [aiResultsFrom_cons, ih (i + 1)]
          rfl
    exact main cases 1
  · exact aiResultsFrom_length net base cases 1

/-- Claim C6: a descriptor whose method is unsupported yields exactly one
FAIL entry whose detail names the unsupported method, produces no error
value, and the runner proceeds with the remaining descriptors unchanged. -/
theorem ai_unsupported_method_continues (net : Net) (base : String) (i : Nat)
    (tc : TestCase) (rest : List TestCase)
    (hm : validMethod (tc.method.getD "GET") = false) :
    aiResultsFrom net base i (tc :: rest) =
      ⟨"[AI Test " ++ toString i ++ "] " ++ tc.description.getD ("Test " ++ toString i),
       "FAIL", "Unsupported method: " ++ tc.method.getD "GET"⟩ ::
        aiResultsFrom net base (i + 1) rest := by
  rw [aiResultsFrom_cons]
  have hlog : (aiStep net base i tc).log =
      [⟨"[AI Test " ++ toString i ++ "] " ++ tc.description.getD ("Test " ++ toString i),
        "FAIL", "Unsupported method: " ++ tc.method.getD "GET"⟩] := by
    unfold aiStep
    rw [test_request_unsupported _ _ _ _ _ _ _ hm]
    rfl
  rw [hlog]
  rfl

/-- Witness for ai_unsupported_method_continues: a BREW descriptor yields
the unsupported-method FAIL entry and the run goes on (to an empty tail). -/
theorem ai_unsupported_method_continues_witness :
    validMethod ((⟨some "BREW", some "/1", none, some 418, some "teapot check"⟩ :
        TestCase).method.getD "GET") = false ∧
    aiResultsFrom netRefuse "http://x"
        1 [⟨some "BREW", some "/1", none, some 418, some "teapot check"⟩] =
      [⟨"[AI Test 1] teapot check", "FAIL", "Unsupported method: BREW"⟩] := by
  refine ⟨by decide, ?_⟩
  rw [ai_unsupported_method_continues netRefuse "http://x" 1
    ⟨some "BREW", some "/1", none, some 418, some "teapot check"⟩ [] (by decide)]
  rfl

/-- Claim C5: for a supported method, whenever the network yields an HTTP
response (any status code, 4xx and 5xx included), the executor inspects
that response: exactly one request is attempted, a matching status returns
the response itself to the caller, and a mismatching status is a FAIL whose
detail carries both status codes and a truncated body, never the
transport-error form; the transport-error FAIL arises exactly from a
network-level failure. -/
theorem executor_classification (net : Net) (base m ep : String) (d : Option Json)
    (exp : Nat) (hm : validMethod m = true) :
    (∀ r, net m (base ++ ep) (payloadOf m d) = NetResult.response r →
       (test_request net base m ep d exp none).issued =
           [(m, base ++ ep, payloadOf m d)] ∧
       (r.status = exp → (test_request net base m ep d exp none).ret = some r) ∧
       (r.status ≠ exp → (test_request net base m ep d exp none).log =
         [⟨m ++ " " ++ (base ++ ep), "FAIL",
           "Expected status " ++ toString exp ++ ", got " ++ toString r.status ++
             ". Response: " ++ strTake r.text 150⟩])) ∧
    (∀ e, net m (base ++ ep) (payloadOf m d) = NetResult.transportError e →
       (test_request net base m ep d exp none).log =
         [⟨m ++ " " ++ (base ++ ep), "FAIL", "Error: " ++ e⟩]) := by
  rw [test_request_valid net base m ep d exp none hm]
  constructor
  · intro r hr
    rw [hr]
    refine ⟨?_, fun hs => ?_, fun hs => ?_⟩
    · dsimp only
      split <;> rfl
    · simp [hs]
    · simp [hs]
  · intro e he
    rw [he]
    rfl

/-- Witness for executor_classification: a received 404 against expected 404
is returned to the caller, and a refused connection is the transport FAIL. -/
theorem executor_classification_witness :
    validMethod "GET" = true ∧
    ((fun _ _ _ => NetResult.response ⟨404, "not found", none, "0.01"⟩ : Net)
        "GET" ("http://x" ++ "/9") (payloadOf "GET" none) =
      NetResult.response ⟨404, "not found", none, "0.01"⟩) ∧
    (test_request (fun _ _ _ => NetResult.response ⟨404, "not found", none, "0.01"⟩)
        "http://x" "GET" "/9" none 404 none).ret =
      some ⟨404, "not found", none, "0.01"⟩ ∧
    (test_request netRefuse "http://x" "GET" "/9" none 404 none).log =
      [⟨"GET " ++ ("http://x" ++ "/9"), "FAIL", "Error: connection refused"⟩] := by
  refine ⟨rfl, rfl, ?_, ?_⟩
  · exact (((executor_classification
      (fun _ _ _ => NetResult.response ⟨404, "not found", none, "0.01"⟩)
      "http://x" "GET" "/9" none 404 rfl).1
        ⟨404, "not found", none, "0.01"⟩ rfl).2.1 rfl)
  · exact ((executor_classification netRefuse "http://x" "GET" "/9" none 404
      rfl).2 "connection refused" rfl)

/-- Claim C10: every test method returns the HTTP response if and only if it
records a PASS outcome, and returns None on every FAIL (status mismatch,
unsupported method, transport error); stated for the generic V4 executor
and all five V1 test methods. -/
theorem returns_response_iff_pass :
    (∀ (net : Net) (base m ep : String) (d : Option Json) (exp : Nat)
        (nm : Option String),
       (test_request net base m ep d exp nm).ret.isSome =
         (test_request net base m ep d exp nm).log.any
           (fun x => x.status == "PASS")) ∧
    (∀ (net : Net) (base ep : String) (exp : Nat),
       (test_get net base ep exp).ret.isSome =
         (test_get net base ep exp).log.any (fun x => x.status == "PASS")) ∧
    (∀ (net : Net) (base ep : String) (d : Option Json) (exp : Nat),
       (test_post net base ep d exp).ret.isSome =
         (test_post net base ep d exp).log.any (fun x => x.status == "PASS")) ∧
    (∀ (net : Net) (base ep : String) (d : Option Json) (exp : Nat),
       (test_put net base ep d exp).ret.isSome =
         (test_put net base ep d exp).log.any (fun x => x.status == "PASS")) ∧
    (∀ (net : Net) (base ep : String) (d : Option Json) (exp : Nat),
       (test_patch net base ep d exp).ret.isSome =
         (test_patch net base ep d exp).log.any (fun x => x.status == "PASS")) ∧
    (∀ (net : Net) (base ep : String) (exp : Nat),
       (test_delete net base ep exp).ret.isSome =
         (test_delete net base ep exp).log.any (fun x => x.status == "PASS")) := by
  refine ⟨?_, ?_, ?_, ?_, ?_, ?_⟩
  · intro net base m ep d exp nm
    cases hv : validMethod m with
    | false => rw [test_request_unsupported net base m ep d exp nm hv]; rfl
    | true =>
        rw [test_request_valid net base m ep d exp nm hv]
        cases hnet : net m (base ++ ep) (payloadOf m d) with
        | response r =>
            dsimp only
            split <;> rfl
        | transportError e => rfl
  · intro net base ep exp
    cases h : net "GET" (base ++ ep) none with
    | response r =>
        simp only [test_get, h]
        split <;> rfl
    | transportError e => simp only [test_get, h]; rfl
  · intro net base ep d exp
    cases h : net "POST" (base ++ ep) d with
    | response r =>
        simp only [test_post, h]
        split <;> rfl
    | transportError e => simp only [test_post, h]; rfl
  · intro net base ep d exp
    cases h : net "PUT" (base ++ ep) d with
    | response r =>
        simp only [test_put, h]
        split <;> rfl
    | transportError e => simp only [test_put, h]; rfl
  · intro net base ep d exp
    cases h : net "PATCH" (base ++ ep) d with
    | response r =>
        simp only [test_patch, h]
        split <;> rfl
    | transportError e => simp only [test_patch, h]; rfl
  · intro net base ep exp
    cases h : net "DELETE" (base ++ ep) none with
    | response r =>
        simp only [test_delete, h]
        split <;> rfl
    | transportError e => simp only [test_delete, h]; rfl

/-- Counterexample to claim C8: a data-driven run over one descriptor with
the unsupported method FOO records one outcome while zero HTTP requests are
attempted, so an outcome can be recorded without any issued request. -/
theorem outcome_without_request_counterexample :
    (aiResultsFrom netRefuse "http://x" 1
        [⟨some "FOO", some "/x", none, some 200, some "bad method"⟩]).length = 1 ∧
    (aiIssuedFrom netRefuse "http://x" 1
        [⟨some "FOO", some "/x", none, some 200, some "bad method"⟩]).length = 0 :=
  ⟨rfl, rfl⟩

lemma aiIssuedFrom_cons (net : Net) (base : String) (i : Nat) (tc : TestCase)
    (rest : List TestCase) :
    aiIssuedFrom net base i (tc :: rest) =
      (aiStep net base i tc).issued ++ aiIssuedFrom net base (i + 1) rest := by
  simp [aiIssuedFrom, runAiAux]

/-- Claim C8 (amended): outcomes and attempted requests correspond one to
one for supported-method descriptors: every test_request call logs exactly
one outcome; it attempts exactly one request when the method is supported
and zero when it is not; a network-level failure still yields a FAIL
outcome with the error text rather than a silent drop; and over a whole
data-driven run the log has one entry per descriptor while the attempted
requests number exactly the supported-method descriptors. -/
theorem outcomes_match_attempted_requests :
    (∀ (net : Net) (base m ep : String) (d : Option Json) (exp : Nat)
        (nm : Option String),
       (test_request net base m ep d exp nm).log.length = 1 ∧
       (test_request net base m ep d exp nm).issued.length =
         (if validMethod m then 1 else 0) ∧
       (∀ e, validMethod m = true →
          net m (base ++ ep) (payloadOf m d) = NetResult.transportError e →
          (test_request net base m ep d exp nm).log =
            [⟨nm.getD (m ++ " " ++ (base ++ ep)), "FAIL", "Error: " ++ e⟩])) ∧
    (∀ (net : Net) (base : String) (i : Nat) (cases : List TestCase),
       (aiResultsFrom net base i cases).length = cases.length ∧
       (aiIssuedFrom net base i cases).length =
         (cases.filter (fun tc => validMethod (tc.method.getD "GET"))).length) := by
  constructor
  · intro net base m ep d exp nm
    refine ⟨test_request_log_length net base m ep d exp nm,
            test_request_issued_length net base m ep d exp nm, ?_⟩
    intro e hv hnet
    rw [test_request_valid net base m ep d exp nm hv, hnet]
  · intro net base i cases
    refine ⟨aiResultsFrom_length net base cases i, ?_⟩
    induction cases generalizing i with
    | nil => rfl
    | cons tc rest ih =>
        rw [aiIssuedFrom_cons, List.length_append, ih (i + 1)]
        have hstep : (aiStep net base i tc).issued.length =
            (if validMethod (tc.method.getD "GET") then 1 else 0) :=
          test_request_issued_length _ _ _ _ _ _ _
        rw [hstep]
        cases h : validMethod (tc.method.getD "GET") with
        | false => simp [List.filter_cons, h]
        | true =>
            simp [List.filter_cons, h]
            omega

/-- Witness for outcomes_match_attempted_requests: a refused connection on a
GET still yields the logged FAIL outcome with the error text. -/
theorem outcomes_match_attempted_requests_witness :
    validMethod "GET" = true ∧
    netRefuse "GET" ("http://x" ++ "/a") (payloadOf "GET" none) =
      NetResult.transportError "connection refused" ∧
    (test_request netRefuse "http://x" "GET" "/a" none 200 none).log =
      [⟨(none : Option String).getD ("GET" ++ " " ++ ("http://x" ++ "/a")), "FAIL",
        "Error: " ++ "connection refused"⟩] := by
  refine ⟨rfl, rfl, ?_⟩
  exact (outcomes_match_attempted_requests.1 netRefuse "http://x" "GET" "/a" none
    200 none).2.2 "connection refused" rfl rfl

/-- Counterexample to claim C9: a base url ending in two slashes has both
trimmed by initialization, not a single one: rstrip removes the whole
trailing run of slashes. -/
theorem single_slash_trim_counterexample :
    apiTesterBase "http://a.com//" = "http://a.com" ∧
    ("http://a.com" : String) ≠ "http://a.com/" := by
  refine ⟨by decide, by decide⟩

lemma dropSlashes_cons_slash (cs : List Char) :
    dropSlashes (Char.ofNat 47 :: cs) = dropSlashes cs := by
  simp [dropSlashes]

/-- Claim C9 (amended): initialization trims the whole trailing run of
slashes from the supplied base URL (one trailing slash is removed, and so
is every further one) and performs no other normalization: a base url not
ending in a slash is stored unchanged; and every attempted request uses the
plain concatenation of the stored base with the endpoint suffix. -/
theorem base_url_trims_all_trailing_slashes :
    (∀ u : String, apiTesterBase (u ++ "/") = apiTesterBase u) ∧
    (∀ u : String, u.toList.getLast? ≠ some (Char.ofNat 47) → apiTesterBase u = u) ∧
    (∀ (net : Net) (raw m ep : String) (d : Option Json) (exp : Nat)
        (nm : Option String), validMethod m = true →
       (test_request net (apiTesterBase raw) m ep d exp nm).issued =
         [(m, apiTesterBase raw ++ ep, payloadOf m d)]) := by
  refine ⟨fun u => ?_, fun u hl => ?_, fun net raw m ep d exp nm hm => ?_⟩
  · unfold apiTesterBase pyRstripSlashes
    have h : (u ++ "/").toList = u.toList ++ [Char.ofNat 47] := by
      show (u ++ "/").data = u.data ++ [Char.ofNat 47]
      rw [String.data_append]
    rw [h, List.reverse_append]
    rfl
  · unfold apiTesterBase pyRstripSlashes
    cases hrev : u.toList.reverse with
    | nil =>
        have hnil : u.toList = [] := List.reverse_eq_nil_iff.mp hrev
        cases u with
        | mk data =>
            have : data = [] := hnil
            rw [this]
            rfl
    | cons c cs =>
        have hc : c ≠ Char.ofNat 47 := by
          intro hceq
          apply hl
          rw [← List.head?_reverse, hrev, hceq]
          rfl
        rw [show dropSlashes (c :: cs) = c :: cs from by simp [dropSlashes, hc],
          ← hrev, List.reverse_reverse]
        cases u with
        | mk data => rfl
  · rw [test_request_valid net (apiTesterBase raw) m ep d exp nm hm]
    cases hnet : net m (apiTesterBase raw ++ ep) (payloadOf m d) with
    | response r =>
        dsimp only
        split <;> rfl
    | transportError e => rfl

/-- Witness for base_url_trims_all_trailing_slashes: a base without a
trailing slash is stored unchanged, and a request against a double-slash
base uses the trimmed base concatenated with the endpoint. -/
theorem base_url_trims_all_trailing_slashes_witness :
    (("http://a" : String).toList.getLast? ≠ some (Char.ofNat 47)) ∧
    apiTesterBase "http://a" = "http://a" ∧
    validMethod "GET" = true ∧
    (test_request netRefuse (apiTesterBase "http://a//") "GET" "/items" none 200
        none).issued =
      [("GET", apiTesterBase "http://a//" ++ "/items", payloadOf "GET" none)] := by
  refine ⟨by decide, ?_, rfl, ?_⟩
  · exact base_url_trims_all_trailing_slashes.2.1 "http://a" (by decide)
  · exact base_url_trims_all_trailing_slashes.2.2 netRefuse "http://a//" "GET"
      "/items" none 200 none rfl

/-- The Create step of the fixed lifecycle fails: the POST to the base url
either receives a status other than 201 or hits a transport error. -/
def createFails (net : Net) (base : String) (cd : Json) : Prop :=
  match net "POST" (base ++ "") (some cd) with
  | NetResult.response r => r.status ≠ 201
  | NetResult.transportError _ => True

lemma test_post_ret_none_of_createFails (net : Net) (base : String) (cd : Json)
    (h : createFails net base cd) :
    (test_post net base "" (some cd) 201).ret = none := by
  unfold createFails at h
  cases hnet : net "POST" (base ++ "") (some cd) with
  | response r =>
      rw [hnet] at h
      simp only [test_post, hnet]
      rw [if_neg h]
  | transportError e => simp only [test_post, hnet]

lemma test_post_fail_of_createFails (net : Net) (base : String) (cd : Json)
    (h : createFails net base cd) :
    ∀ x ∈ (test_post net base "" (some cd) 201).log, x.status = "FAIL" := by
  unfold createFails at h
  cases hnet : net "POST" (base ++ "") (some cd) with
  | response r =>
      rw [hnet] at h
      simp only [test_post, hnet]
      rw [if_neg h]
      intro x hx
      simp only [List.mem_singleton] at hx
      rw [hx]
  | transportError e =>
      simp only [test_post, hnet]
      intro x hx
      simp only [List.mem_singleton] at hx
      rw [hx]

/-- Claim C2: when the Create step fails (non-201 status or transport
error), the lifecycle run skips every identity-dependent step and its log
is exactly the Create failure outcome, the ListAll outcome and the three
EdgeCases outcomes: five entries, the first of which is a FAIL. -/
theorem crud_create_failure_shape (net : Net) (base : String) (cd ud pd : Json)
    (ef : Option (List String)) (h : createFails net base cd) :
    run_full_crud_test net base (some cd) (some ud) (some pd) ef =
      (test_post net base "" (some cd) 201).log ++
      (test_get net base "" 200).log ++
      ((test_get net base "/nonexistent-id-12345" 404).log ++
       (test_delete net base "/nonexistent-id-12345" 404).log ++
       (test_post net base "" (some (Json.obj [])) 400).log) ∧
    (run_full_crud_test net base (some cd) (some ud) (some pd) ef).length = 5 ∧
    (∀ x ∈ (test_post net base "" (some cd) 201).log, x.status = "FAIL") := by
  have hret := test_post_ret_none_of_createFails net base cd h
  have hshape : run_full_crud_test net base (some cd) (some ud) (some pd) ef =
      (test_post net base "" (some cd) 201).log ++
      (test_get net base "" 200).log ++
      ((test_get net base "/nonexistent-id-12345" 404).log ++
       (test_delete net base "/nonexistent-id-12345" 404).log ++
       (test_post net base "" (some (Json.obj [])) 400).log) := by
    simp [run_full_crud_test, hret, pyTruthy]
  refine ⟨hshape, ?_, test_post_fail_of_createFails net base cd h⟩
  rw [hshape]
  simp [test_post_log_length, test_get_log_length, test_delete_log_length]

/-- Witness for crud_create_failure_shape: with every network call refused,
the run log is exactly the five transport-failure entries of the Create,
ListAll and EdgeCases steps. -/
theorem crud_create_failure_shape_witness :
    createFails netRefuse "http://x" default_create_data ∧
    run_full_crud_test netRefuse "http://x" (some default_create_data)
        (some default_update_data) (some default_patch_data) none =
      [⟨"POST " ++ ("http://x" ++ ""), "FAIL", "Error: connection refused"⟩,
       ⟨"GET " ++ ("http://x" ++ ""), "FAIL", "Error: connection refused"⟩,
       ⟨"GET " ++ ("http://x" ++ "/nonexistent-id-12345"), "FAIL",
        "Error: connection refused"⟩,
       ⟨"DELETE " ++ ("http://x" ++ "/nonexistent-id-12345"), "FAIL",
        "Error: connection refused"⟩,
       ⟨"POST " ++ ("http://x" ++ ""), "FAIL", "Error: connection refused"⟩] := by
  have h : createFails netRefuse "http://x" default_create_data := trivial
  refine ⟨h, ?_⟩
  rw [(crud_create_failure_shape netRefuse "http://x" default_create_data
    default_update_data default_patch_data none h).1]
  rfl
